import Mathlib

/-!
Verification of the query-routing / multi-source retrieval pipeline of the
document-assistant repository. The Python sources are shallowly embedded:
pure functions become Lean functions, the LLM backend and the knowledge-base
engine become oracle parameters (functions / `Except` values), Python floats
become exact rationals (`ℚ`), and a Python call that can raise is modelled in
the `Except String` monad (`.error` = an exception propagating to the caller).
The Python `\w` character class is modelled over ASCII.
-/

/-! ## Python-style string primitives (character-list based) -/

/-- Python `\s` (ASCII): space, tab, newline, carriage return, form feed, vertical tab. -/
def pyIsSpace (c : Char) : Bool :=
  c = ' ' || c = '\t' || c = '\n' || c = '\r' || c = '\x0b' || c = '\x0c'

/-- ASCII digit. -/
def chIsDigit (c : Char) : Bool := 48 ≤ c.toNat && c.toNat ≤ 57

/-- ASCII uppercase letter. -/
def chIsUpper (c : Char) : Bool := 65 ≤ c.toNat && c.toNat ≤ 90

/-- ASCII lowercase letter. -/
def chIsLower (c : Char) : Bool := 97 ≤ c.toNat && c.toNat ≤ 122

/-- Python `\w` over ASCII: letter, digit or underscore. -/
def chIsWord (c : Char) : Bool := chIsUpper c || chIsLower c || chIsDigit c || c = '_'

/-- ASCII lowering, as used by Python `str.lower` on ASCII text. -/
def chToLower (c : Char) : Char :=
  if chIsUpper c then Char.ofNat (c.toNat + 32) else c

/-- Python `str.lower` (ASCII model). -/
def pyLower (s : String) : String := ⟨s.toList.map chToLower⟩

/-- Boolean list-prefix test (first argument is the candidate prefix). -/
def isPrefixB : List Char → List Char → Bool
  | [], _ => true
  | _ :: _, [] => false
  | a :: as, b :: bs => a = b && isPrefixB as bs

/-- Containment of `needle` in a character list, Python `needle in hay`. -/
def chContains (needle : List Char) : List Char → Bool
  | [] => isPrefixB needle []
  | c :: t => isPrefixB needle (c :: t) || chContains needle t

/-- Python `sub in hay` on strings (substring containment). -/
def strContains (hay sub : String) : Bool := chContains sub.toList hay.toList

/-- Strip Python-whitespace from both ends of a character list. -/
def stripChars (l : List Char) : List Char :=
  ((l.dropWhile pyIsSpace).reverse.dropWhile pyIsSpace).reverse

/-- Python `str.strip()`. -/
def pyStrip (s : String) : String := ⟨stripChars s.toList⟩

/-- Worker for `pySplit`: split on whitespace runs, discarding empty pieces
(`cur` is the current word accumulated in reverse). -/
def splitWsAux (cur : List Char) : List Char → List (List Char)
  | [] => if cur.isEmpty then [] else [cur.reverse]
  | c :: rest =>
    if pyIsSpace c then
      if cur.isEmpty then splitWsAux [] rest else cur.reverse :: splitWsAux [] rest
    else splitWsAux (c :: cur) rest

/-- Python `str.split()` with no argument: split on whitespace runs, no empties. -/
def pySplit (s : String) : List String := (splitWsAux [] s.toList).map String.mk

/-- Worker for `pySplitOn`: split on a single separator character, keeping empties
(Python `str.split(sep)`). -/
def splitCharAux (sep : Char) (cur : List Char) : List Char → List (List Char)
  | [] => [cur.reverse]
  | c :: rest =>
    if c = sep then cur.reverse :: splitCharAux sep [] rest
    else splitCharAux sep (c :: cur) rest

/-- Python `str.split(sep)` for a one-character separator. -/
def pySplitOn (sep : Char) (s : String) : List String :=
  (splitCharAux sep [] s.toList).map String.mk

/-- First `n` characters of a string, Python `s[:n]`. -/
def strTake (s : String) (n : Nat) : String := ⟨s.toList.take n⟩

/-- Character count of a string, Python `len(s)`. -/
def strLen (s : String) : Nat := s.toList.length

/-- Python `sep.join(parts)`. -/
def pyJoin (sep : String) : List String → String
  | [] => ""
  | p :: rest => rest.foldl (fun acc x => acc ++ sep ++ x) p

/-- Keep the first occurrence of each element (models iterating `list(set(xs))`;
Python set order is unspecified, first-occurrence order is fixed here). -/
def dedupFirst (seen : List String) : List String → List String
  | [] => []
  | x :: xs => if x ∈ seen then dedupFirst seen xs else x :: dedupFirst (x :: seen) xs

/-! ## Shared data model (`backend/types/response_types.py`, `chat_agent.py`,
`no_result_handler_agent.py`, `query_kb_mapper_agent*.py`, `filter_utils.py`) -/

/-- `DocumentReference` dataclass: one retrieved passage. -/
structure DocumentReference where
  doc_id : String
  doc_title : String
  text : String
  relevance_score : ℚ
  page_numbers : Option (Option Int × Option Int) := none
  metadata : List (String × String) := []
  kb_title : Option String := none
deriving DecidableEq, Repr

/-- `SearchContext` dataclass: passages returned from one knowledge base. -/
structure SearchContext where
  kb_id : String
  results : List DocumentReference
  mapping_score : ℚ
  kb_title : Option String := none
deriving DecidableEq, Repr

/-- `KBMappingResult` dataclass: router output per candidate base. -/
structure KBMappingResult where
  kb_id : String
  relevance_score : ℚ
  reasoning : String
deriving DecidableEq, Repr

/-- One entry of the knowledge-base catalog returned by
`kb_manager.list_knowledge_bases()` (a dict with id / title / description). -/
structure KBInfo where
  id : String
  title : String
  description : String
deriving DecidableEq, Repr

/-- `SearchFailureAnalysis` dataclass of `no_result_handler_agent.py`. -/
structure SearchFailureAnalysis where
  failure_type : String
  possible_causes : List String
  suggested_actions : List String
  reformulated_queries : Option (List String) := none
deriving DecidableEq, Repr

/-- The `failure_analysis` metadata dict attached to a failure `Message`. -/
structure FailureAnalysisMeta where
  type : String
  causes : List String
  suggestions : List String
  reformulations : Option (List String)
deriving DecidableEq, Repr

/-- One document entry of the `sources` metadata of a response `Message`. -/
structure SourceDocMeta where
  doc_id : String
  title : String
  relevance : ℚ
  page_numbers : Option (Option Int × Option Int)
deriving DecidableEq, Repr

/-- One knowledge-base entry of the `sources` metadata of a response `Message`. -/
structure SourceMeta where
  kb_id : String
  kb_title : String
  documents : List SourceDocMeta
deriving DecidableEq, Repr

/-- Structured model of the metadata dict a `Message` can carry: either the
`failure_analysis` payload, or `sources` with an optional `query_reformulation`
record (original, successful). -/
inductive MessageMetadata where
  | failureAnalysis (fa : FailureAnalysisMeta)
  | sources (src : List SourceMeta) (query_reformulation : Option (String × String))
deriving DecidableEq, Repr

/-- `Message` dataclass of `chat_agent.py`. -/
structure Message where
  role : String
  content : String
  metadata : Option MessageMetadata := none
deriving DecidableEq, Repr

/-- Metadata-filter value: Python allows a plain string or a list of strings. -/
inductive PyValue where
  | str (s : String)
  | list (l : List String)
deriving DecidableEq, Repr

/-- The `{field, operator, value}` metadata filter dict. -/
structure PyMetadataFilter where
  field : String
  operator : String
  value : PyValue
deriving DecidableEq, Repr

/-- The per-document record returned by `chunk_db.get_document`. -/
structure DocInfo where
  id : String
  metadata : List (String × String) := []
deriving DecidableEq, Repr

/-- `SearchFilter` dataclass of `backend/utils/filter_utils.py`. -/
structure SearchFilter where
  kb_ids : Option (List String) := none
  doc_ids : Option (List (String × List String)) := none
deriving DecidableEq, Repr

namespace SearchFilter

/-- Python truthiness of an optional list (None and `[]` are falsy). -/
def optTruthy {α : Type} : Option (List α) → Bool
  | some (_ :: _) => true
  | _ => false

/-- `SearchFilter.has_filters`. -/
def has_filters (f : SearchFilter) : Bool :=
  optTruthy f.kb_ids || optTruthy f.doc_ids

/-- `SearchFilter.get_kb_ids`. -/
def get_kb_ids (f : SearchFilter) : List String :=
  if optTruthy f.kb_ids then f.kb_ids.getD []
  else if optTruthy f.doc_ids then (f.doc_ids.getD []).map Prod.fst
  else []

/-- `SearchFilter.to_metadata_filter`: `{"field": "doc_id", "operator": "in",
"value": doc_ids[kb_id]}` when the filter lists documents for this base. -/
def to_metadata_filter (f : SearchFilter) (kb_id : String) : Option PyMetadataFilter :=
  if optTruthy f.doc_ids then
    match (f.doc_ids.getD []).find? (fun e => e.fst = kb_id) with
    | some e => some ⟨"doc_id", "in", PyValue.list e.snd⟩
    | none => none
  else none

end SearchFilter

/-! ## Search agent (`backend/agents/old/search_agent simple.py`) -/

namespace SearchAgentOld

/-- `SearchMode` enum. -/
inductive SearchMode where
  | precise
  | balanced
  | thorough
  | exhaustive
deriving DecidableEq, Repr

/-- `SearchConfig` dataclass (defaults as in the source). -/
structure SearchConfig where
  mode : SearchMode := SearchMode.balanced
  min_relevance : ℚ := mkRat 6 10
  max_segments_per_doc : Int := 3
  adaptive_recall : Bool := true
  enable_fallback : Bool := true
  fallback_min_relevance : ℚ := mkRat 3 10
  fallback_search_limit : Nat := 200
deriving DecidableEq, Repr

/-- `_preprocess_text`: lowercase, punctuation (`[^\w\s]`) to space, collapse
whitespace runs, strip. -/
def preprocess_text (s : String) : String :=
  let lowered := (s.toList.map chToLower)
  let depunct := lowered.map (fun c => if !(chIsWord c || pyIsSpace c) then ' ' else c)
  pyStrip ⟨collapseWs false depunct⟩
where
  /-- Replace each whitespace run by a single space (`re.sub(r"\s+", " ", ...)`);
  the flag records whether the previous character was whitespace. -/
  collapseWs (prevSpace : Bool) : List Char → List Char
    | [] => []
    | c :: rest =>
      if pyIsSpace c then
        if prevSpace then collapseWs true rest else ' ' :: collapseWs true rest
      else c :: collapseWs false rest

/-- `_get_keywords`: preprocess, tokenize (`\w+` over the preprocessed text is
whitespace splitting), drop stop words and words of length at most 2, then
deduplicate (`list(set(...))`, modelled in first-occurrence order). -/
def get_keywords (stop_words : List String) (text : String) : List String :=
  let t := preprocess_text text
  let tokens := pySplit (preprocess_text t)
  dedupFirst [] (tokens.filter (fun w => !stop_words.contains w && decide (2 < strLen w)))

/-- `_keyword_search_score`: fraction of keywords present in the passage words,
plus 0.1 for each adjacent keyword bigram found verbatim, capped at 1.0. -/
def keyword_search_score (stop_words : List String) (text : String)
    (keywords : List String) : ℚ :=
  if keywords.isEmpty then 0
  else
    let t := preprocess_text text
    let text_words := (pySplit t).filter (fun w => !stop_words.contains w)
    let nMatches : Nat := keywords.countP (fun k => text_words.contains k)
    let base : ℚ := (nMatches : ℚ) / (keywords.length : ℚ)
    let bigrams : Nat :=
      (keywords.zip keywords.tail).countP (fun p => strContains t (p.1 ++ " " ++ p.2))
    min 1 (base + (bigrams : ℚ) * mkRat 1 10)

/-- `_check_metadata_filter` (the `doc_id` field with `equals` / `in`;
everything else passes). -/
def check_metadata_filter (doc_info : Option DocInfo) (f : PyMetadataFilter) : Bool :=
  match doc_info with
  | none => true
  | some info =>
    if f.field = "doc_id" then
      if f.operator = "equals" then
        match f.value with
        | PyValue.str s => info.id = s
        | PyValue.list _ => false
      else if f.operator = "in" then
        match f.value with
        | PyValue.str s => strContains s info.id
        | PyValue.list l => l.contains info.id
      else true
    else true

/-- The chunk store behind `kb.chunk_db`: per-document ordered chunk texts plus
the metadata lookups used by the fallback search. -/
structure ChunkDB where
  all_doc_ids : List String
  chunks : String → List String
  titles : String → Nat → String
  docs : String → Option DocInfo
  pages : String → Nat → Option (Option Int × Option Int)

/-- `get_chunk_text` (a missing index is the falsy empty string). -/
def ChunkDB.chunkText (db : ChunkDB) (d : String) (i : Nat) : String :=
  (db.chunks d).getD i ""

/-- `doc_info.get("metadata", {}) if doc_info else {}`. -/
def ChunkDB.docMeta (db : ChunkDB) (d : String) : List (String × String) :=
  match db.docs d with
  | some info => info.metadata
  | none => []

/-- One raw hit of the native `kb.search` call. -/
structure RawHit where
  doc_id : String
  chunk_index : Nat
  similarity : ℚ
deriving DecidableEq, Repr

/-- Oracle inputs of `_combined_fallback_search`: the outcome of the native
`kb.search` call (`.error` = the call raised) and the chunk store. -/
structure FallbackEnv where
  kbSearch : Except String (List RawHit)
  db : ChunkDB

/-- The `DocumentReference` built for one accepted `kb.search` hit. -/
def mkKbRef (db : ChunkDB) (h : RawHit) : DocumentReference :=
  { doc_id := h.doc_id
    doc_title := db.titles h.doc_id h.chunk_index
    text := db.chunkText h.doc_id h.chunk_index
    relevance_score := h.similarity
    page_numbers := db.pages h.doc_id h.chunk_index
    metadata := db.docMeta h.doc_id }

/-- The `kb_results` list: native hits at or above the fallback floor, in hit
order; an exception from `kb.search` is caught and leaves the list empty. -/
def kbResults (env : FallbackEnv) (config : SearchConfig) : List DocumentReference :=
  match env.kbSearch with
  | Except.error _ => []
  | Except.ok hits =>
    (hits.filter (fun h => decide (config.fallback_min_relevance ≤ h.similarity))).map
      (mkKbRef env.db)

/-- The keyword-strategy `DocumentReference` for one chunk. -/
def mkKwRef (db : ChunkDB) (d : String) (i : Nat) (t : String) (score : ℚ) :
    DocumentReference :=
  { doc_id := d
    doc_title := db.titles d i
    text := t
    relevance_score := score
    page_numbers := db.pages d i
    metadata := db.docMeta d }

/-- The per-document `while` loop of the keyword strategy: walk chunks from
index 0, stop at the first falsy chunk text, keep chunks scoring at or above
the fallback floor. -/
def scanDoc (db : ChunkDB) (stop_words : List String) (keywords : List String)
    (config : SearchConfig) (d : String) : Nat → List String → List DocumentReference
  | _, [] => []
  | i, t :: rest =>
    if t = "" then []
    else
      let score := keyword_search_score stop_words t keywords
      (if decide (config.fallback_min_relevance ≤ score) then
        [mkKwRef db d i t score]
      else []) ++ scanDoc db stop_words keywords config d (i + 1) rest

/-- The `keyword_results` list: every document (that passes the metadata
filter), scanned chunk by chunk. -/
def keywordResults (env : FallbackEnv) (stop_words : List String)
    (keywords : List String) (metadata_filter : Option PyMetadataFilter)
    (config : SearchConfig) : List DocumentReference :=
  (env.db.all_doc_ids.filter (fun d =>
    match metadata_filter with
    | some f => check_metadata_filter (env.db.docs d) f
    | none => true)).flatMap
    (fun d => scanDoc env.db stop_words keywords config d 0 (env.db.chunks d))

/-- `get_chunk_key`: the dedup key `f"{doc_id}_{text[:100]}"`. -/
def get_chunk_key (r : DocumentReference) : String :=
  r.doc_id ++ "_" ++ strTake r.text 100

/-- The 0.9 multiplicative penalty applied to keyword-only results. -/
def applyPenalty (r : DocumentReference) : DocumentReference :=
  { r with relevance_score := r.relevance_score * mkRat 9 10 }

/-- Output of one merge loop: results whose key is not yet in `seen`, each
transformed by `pen` (identity for the vector pass, the 0.9 penalty for the
keyword pass). -/
def dedupOut (pen : DocumentReference → DocumentReference) :
    List DocumentReference → List String → List DocumentReference
  | [], _ => []
  | r :: rest, seen =>
    if get_chunk_key r ∈ seen then dedupOut pen rest seen
    else pen r :: dedupOut pen rest (get_chunk_key r :: seen)

/-- The `seen_chunks` set after a merge loop (as an accumulation list). -/
def dedupSeen : List DocumentReference → List String → List String
  | [], seen => seen
  | r :: rest, seen =>
    if get_chunk_key r ∈ seen then dedupSeen rest seen
    else dedupSeen rest (get_chunk_key r :: seen)

/-- `all_results` after the two merge loops: vector results first (first-wins
dedup), then keyword results not already seen, with the 0.9 penalty. -/
def mergedResults (kb_results keyword_results : List DocumentReference) :
    List DocumentReference :=
  dedupOut id kb_results [] ++
    dedupOut applyPenalty keyword_results (dedupSeen kb_results [])

/-- `all_results.sort(key=..., reverse=True)`: stable descending sort by score. -/
def sortByScoreDesc (l : List DocumentReference) : List DocumentReference :=
  l.insertionSort (fun a b => b.relevance_score ≤ a.relevance_score)

/-- The per-document cap loop (`doc_count` tally, keep while below the cap). -/
def capPerDoc (maxSeg : Int) (cnt : String → Nat) :
    List DocumentReference → List DocumentReference
  | [] => []
  | r :: rest =>
    if (cnt r.doc_id : Int) < maxSeg then
      r :: capPerDoc maxSeg (fun d => if d = r.doc_id then cnt d + 1 else cnt d) rest
    else capPerDoc maxSeg cnt rest

/-- `_combined_fallback_search`: keyword extraction, the two strategies, the
first-wins merge with the 0.9 penalty, the descending sort, the per-document
cap (skipped when `max_segments_per_doc <= 0`). -/
def combined_fallback_search (env : FallbackEnv) (stop_words : List String)
    (query : String) (metadata_filter : Option PyMetadataFilter)
    (config : SearchConfig) : List DocumentReference :=
  let keywords := get_keywords stop_words query
  if keywords.isEmpty then []
  else
    let kb_results := kbResults env config
    let keyword_results := keywordResults env stop_words keywords metadata_filter config
    let all_results := sortByScoreDesc (mergedResults kb_results keyword_results)
    if 0 < config.max_segments_per_doc then
      capPerDoc config.max_segments_per_doc (fun _ => 0) all_results
    else all_results

/-- `multi_kb_search` of the old search agent: per mapping, skip bases that do
not load; a base that loads reaches `self.search(query=..., kb=..., config=...)`,
whose signature `search(self, query, kb, filters=None)` has no `config`
parameter, so Python raises a `TypeError` that propagates to the caller. -/
def multi_kb_search (loadKB : String → Bool) (query : String)
    (kb_mappings : List KBMappingResult) (config : Option SearchConfig) :
    Except String (List SearchContext) :=
  match kb_mappings with
  | [] => Except.ok []
  | m :: rest =>
    if loadKB m.kb_id then
      Except.error "TypeError: search() got an unexpected keyword argument \x27config\x27"
    else multi_kb_search loadKB query rest config

end SearchAgentOld

/-! ## Parsed LLM mapping payloads (shared by the mapper variants) -/

/-- One well-typed element of the `mappings` array parsed from the backend
response (`{kb_id, relevance_score, reasoning}`). -/
structure MappingEntry where
  kb_id : String
  relevance_score : ℚ
  reasoning : String
deriving DecidableEq, Repr

/-! ## Query-to-KB mapper, "norme" variant
(`backend/agents/old/query_kb_mapper_agent norme.py`) -/

namespace MapperNorme

/-- The per-base mention check: `query.lower().find(kb_id.lower()) != -1`,
looked up through the `kb_mentions` dict (`.get(kb_id, False)`, so an id
outside the catalog reads as no mention). -/
def kb_mention (query : String) (available_kbs : List KBInfo) (kb_id : String) : Bool :=
  if available_kbs.any (fun kb => kb.id = kb_id) then
    strContains (pyLower query) (pyLower kb_id)
  else false

/-- The validation / scoring loop body of `_evaluate_kb_relevance`. -/
def scoreEntries (query : String) (available_kbs : List KBInfo) :
    List MappingEntry → List KBMappingResult
  | [] => []
  | e :: rest =>
    let kb_id := pyStrip e.kb_id
    let reasoning := pyStrip e.reasoning
    if kb_id = "" || !available_kbs.any (fun kb => kb.id = kb_id) then
      scoreEntries query available_kbs rest
    else
      let final_score : ℚ :=
        if kb_mention query available_kbs kb_id then 1
        else max (mkRat 6 10) (min 1 e.relevance_score)
      -- `if final_score >= 0.6` (always true by construction, kept as written)
      if decide ((mkRat 6 10 : ℚ) ≤ final_score) then
        { kb_id := kb_id
          relevance_score := final_score
          reasoning := if reasoning = "" then "Base pertinente pour la requête" else reasoning } ::
          scoreEntries query available_kbs rest
      else scoreEntries query available_kbs rest

/-- Stable descending sort by `relevance_score` (Python `list.sort(reverse=True)`). -/
def sortDescM (l : List KBMappingResult) : List KBMappingResult :=
  l.insertionSort (fun a b => b.relevance_score ≤ a.relevance_score)

/-- `_evaluate_kb_relevance`: validate and score the parsed mappings, sort
descending, then apply the "normes" priority rule (the "normes" base, when
present, is placed first, followed by the single best other base; otherwise
the two best bases are kept). -/
def evaluate_kb_relevance (query : String) (available_kbs : List KBInfo)
    (entries : List MappingEntry) : List KBMappingResult :=
  let results := sortDescM (scoreEntries query available_kbs entries)
  match results.find? (fun m => m.kb_id = "normes") with
  | some normes_mapping =>
    normes_mapping ::
      (match results.filter (fun m => m.kb_id ≠ "normes") with
       | [] => []
       | o :: _ => [o])
  | none => results.take 2

/-- `map_query_to_kbs` of the norme variant. The whole body runs under
`try/except Exception: return []`, so a raising backend call yields `[]`.
`parse` models `_extract_json_from_response` plus the dict validation
(`none` = no usable `mappings` list was recovered). The `min_relevance`
parameter is accepted but never read by the source. -/
def map_query_to_kbs (catalog : List KBInfo) (llm : Except String String)
    (parse : String → Option (List MappingEntry)) (query : String)
    (min_relevance : ℚ := mkRat 6 10) : List KBMappingResult :=
  if catalog.isEmpty then []
  else
    match llm with
    | Except.error _ => []
    | Except.ok response =>
      match parse response with
      | none => []
      | some entries =>
        let mappings := evaluate_kb_relevance query catalog entries
        if mappings.isEmpty then [] else mappings

end MapperNorme

/-! ## Query-to-KB mapper, "score V1" variant
(`backend/agents/old/query_kb_mapper_agent score V1.py`) -/

namespace MapperV1

/-- The score post-processing of `_evaluate_kb_relevance`: clamp into [0, 1],
then apply the 0.8 penalty when the reasoning is shorter than 20 characters. -/
def adjustScore (e : MappingEntry) : ℚ :=
  let clamped := max 0 (min 1 e.relevance_score)
  if strLen e.reasoning < 20 then clamped * mkRat 8 10 else clamped

/-- `_evaluate_kb_relevance`: post-process every entry, sort descending. -/
def evaluate_kb_relevance (entries : List MappingEntry) : List KBMappingResult :=
  (entries.map (fun e =>
    ({ kb_id := e.kb_id, relevance_score := adjustScore e, reasoning := e.reasoning } :
      KBMappingResult))).insertionSort
    (fun a b => b.relevance_score ≤ a.relevance_score)

/-- `map_query_to_kbs` of the score V1 variant: on a JSON decode failure the
fallback returns every catalog base at the fixed score 0.5 (bypassing the
`min_relevance` filter); on success the evaluated mappings are filtered by
`min_relevance` (default 0.3). A raising backend call is caught by the outer
`except Exception` and yields `[]`. -/
def map_query_to_kbs (catalog : List KBInfo) (llm : Except String String)
    (parse : String → Option (List MappingEntry)) (query : String)
    (min_relevance : ℚ := mkRat 3 10) : List KBMappingResult :=
  if catalog.isEmpty then []
  else
    match llm with
    | Except.error _ => []
    | Except.ok response =>
      match parse response with
      | none =>
        catalog.map (fun kb =>
          { kb_id := kb.id
            relevance_score := mkRat 5 10
            reasoning := "Analyse automatique indisponible - score par défaut" })
      | some entries =>
        (evaluate_kb_relevance entries).filter
          (fun m => decide (min_relevance ≤ m.relevance_score))

end MapperV1

/-! ## Query-to-KB mapper, "copy2" variant
(`backend/agents/old/query_kb_mapper_agent copy2.py`) -/

namespace MapperCopy2

/-- `map_query_to_kbs` of the copy2 variant. The backend call sits OUTSIDE the
`try` block, so an exception from it propagates to the caller (`.error`); only
JSON decode / key errors during parsing reach the catalog-wide fallback (every
base at score 1.0). -/
def map_query_to_kbs (catalog : List KBInfo) (llm : Except String String)
    (parse : String → Option (List MappingEntry)) (query : String)
    (min_relevance : ℚ := mkRat 6 10) : Except String (List KBMappingResult) :=
  match llm with
  | Except.error e => Except.error e
  | Except.ok response =>
    match parse response with
    | none =>
      Except.ok (catalog.map (fun kb =>
        { kb_id := kb.id
          relevance_score := 1
          reasoning := "Fallback: analyse automatique indisponible" }))
    | some entries =>
      Except.ok
        (((entries.filter (fun e => decide (min_relevance ≤ e.relevance_score))).map
          (fun e =>
            ({ kb_id := e.kb_id
               relevance_score := e.relevance_score
               reasoning := e.reasoning } : KBMappingResult))).insertionSort
          (fun a b => b.relevance_score ≤ a.relevance_score))

end MapperCopy2

/-! ## No-results handler (`backend/agents/no_result_handler_agent.py`) -/

namespace NoResultsHandler

/-- The parsed JSON payload expected from the analysis backend call
(`possible_causes`, `suggested_actions`, `reformulations`). -/
structure NoResultsPayload where
  possible_causes : List String
  suggested_actions : List String
  reformulations : List String
deriving DecidableEq, Repr

/-- The three intensifier words removed by `_simplify_query`
(`re.sub(r"(exactement|précisément|spécifiquement)", "", query)`). -/
def intensifiers : List (List Char) :=
  ["exactement".toList, "précisément".toList, "spécifiquement".toList]

/-- Remove every occurrence of the intensifier literals, scanning left to
right and trying the alternatives in order at each position. -/
def removeIntensifiers : List Char → List Char
  | [] => []
  | c :: rest =>
    if isPrefixB "exactement".toList (c :: rest) then
      removeIntensifiers (rest.drop ("exactement".toList.length - 1))
    else if isPrefixB "précisément".toList (c :: rest) then
      removeIntensifiers (rest.drop ("précisément".toList.length - 1))
    else if isPrefixB "spécifiquement".toList (c :: rest) then
      removeIntensifiers (rest.drop ("spécifiquement".toList.length - 1))
    else c :: removeIntensifiers rest
termination_by l => l.length
decreasing_by
  all_goals simp only [List.length_cons, List.length_drop]
  all_goals omega

/-- `_simplify_query`: strip intensifiers, keep the first four words. -/
def simplify_query (query : String) : String :=
  let simplified : String := ⟨removeIntensifiers query.toList⟩
  pyStrip (pyJoin " " ((pySplit simplified).take 4))

/-- Python word boundary `\b` between positions `k - 1` and `k` of `l`
(positions outside the list count as non-word). -/
def boundaryAfter (l : List Char) (k : Nat) : Bool :=
  let prevW := match l.get? (k - 1) with
    | some c => chIsWord c
    | none => false
  let nextW := match l.get? k with
    | some c => chIsWord c
    | none => false
  prevW != nextW

/-- Greedy-with-backtracking match length: the largest `k` at most `run` with
a word boundary after `k` characters (regex `X+\b` backtracking). -/
def findDown (l : List Char) : Nat → Option { n : Nat // 0 < n }
  | 0 => none
  | k + 1 => if boundaryAfter l (k + 1) then some ⟨k + 1, Nat.succ_pos k⟩ else findDown l k

/-- Try one alternative `\bC+\b` at the current position (`prevWord` says
whether the preceding character was a word character). -/
def tryAlt (cls : Char → Bool) (prevWord : Bool) (l : List Char) :
    Option { n : Nat // 0 < n } :=
  match l with
  | [] => none
  | c :: _ =>
    if prevWord != chIsWord c then findDown l (l.takeWhile cls).length else none

/-- The character class `[A-Z0-9-]` of the second alternative. -/
def chIsUpperNum (c : Char) : Bool := chIsUpper c || chIsDigit c || c = '-'

/-- Wordness of the last character of a removed match of length `k`, which is
the character preceding the resumption position of the scan. -/
def matchEndWord (l : List Char) (k : Nat) : Bool :=
  match l.get? (k - 1) with
  | some c => chIsWord c
  | none => false

/-- The scan of `re.sub(r"\b\d+\b|\b[A-Z0-9-]+\b", "", query)`: at each
position try the digit alternative, then the uppercase/digit/hyphen
alternative; on a match drop it and continue after it. -/
def subSpecificTerms : Bool → List Char → List Char
  | _, [] => []
  | prevWord, c :: rest =>
    match tryAlt chIsDigit prevWord (c :: rest) with
    | some k =>
      subSpecificTerms (matchEndWord (c :: rest) k.1) ((c :: rest).drop k.1)
    | none =>
      match tryAlt chIsUpperNum prevWord (c :: rest) with
      | some k =>
        subSpecificTerms (matchEndWord (c :: rest) k.1) ((c :: rest).drop k.1)
      | none => c :: subSpecificTerms (chIsWord c) rest
termination_by _ l => l.length
decreasing_by
  all_goals simp only [List.length_drop, List.length_cons]
  · have := k.2
    omega
  · have := k.2
    omega
  · omega

/-- `_remove_specific_terms`: drop numeric and uppercase/code tokens, strip. -/
def remove_specific_terms (query : String) : String :=
  pyStrip ⟨subSpecificTerms false query.toList⟩

/-- `_handle_no_kb_case`: the deterministic no-knowledge-base analysis. -/
def handle_no_kb_case : SearchFailureAnalysis :=
  { failure_type := "no_kb"
    possible_causes :=
      ["Aucune base de connaissances n\x27a été créée",
       "Les bases existantes sont peut-être inaccessibles"]
    suggested_actions :=
      ["Créer une nouvelle base de connaissances",
       "Vérifier les permissions d\x27accès aux bases",
       "Contacter l\x27administrateur du système"]
    reformulated_queries := none }

/-- `_get_default_no_results_analysis`: the deterministic fallback used when
the analysis backend output cannot be parsed. -/
def get_default_no_results_analysis (query : String) : SearchFailureAnalysis :=
  { failure_type := "no_results"
    possible_causes :=
      ["Les termes de recherche sont peut-être trop spécifiques",
       "Le contenu recherché n\x27est peut-être pas présent dans les bases"]
    suggested_actions :=
      ["Essayer des termes plus généraux",
       "Vérifier l\x27orthographe des mots-clés",
       "Utiliser des synonymes"]
    reformulated_queries := some [simplify_query query, remove_specific_terms query] }

/-- `_handle_no_results_case`. The backend call stands BEFORE the `try` block,
so `.error` propagates; only parse failures (`.ok none`) reach the fallback. -/
def handle_no_results_case (llmAnalysis : Except String (Option NoResultsPayload))
    (query : String) : Except String SearchFailureAnalysis :=
  match llmAnalysis with
  | Except.error e => Except.error e
  | Except.ok parsed =>
    Except.ok (match parsed with
      | some a =>
        { failure_type := "no_results"
          possible_causes := a.possible_causes
          suggested_actions := a.suggested_actions
          reformulated_queries := some a.reformulations }
      | none => get_default_no_results_analysis query)

/-- Two-decimal fixed-point rendering of the mean score, `f"{x:.2f}"`
(round half to even on the hundredths). -/
def format2f (q : ℚ) : String :=
  let scaled : ℚ := q * 100
  let fl : Int := ⌊scaled⌋
  let frac : ℚ := scaled - fl
  let n : Int :=
    if frac > mkRat 1 2 then fl + 1
    else if frac < mkRat 1 2 then fl
    else if fl % 2 = 0 then fl else fl + 1
  let ip : Int := n / 100
  let rem : Nat := (n % 100).natAbs
  toString ip ++ "." ++ (if rem < 10 then "0" else "") ++ toString rem

/-- `_generate_specific_queries`: one backend call with NO try block (`.error`
propagates), whose text output is split on newlines, stripped, blanks dropped. -/
def generate_specific_queries (llmSpecific : Except String String) (query : String) :
    Except String (List String) :=
  match llmSpecific with
  | Except.error e => Except.error e
  | Except.ok response =>
    Except.ok (((pySplitOn '\n' response).map pyStrip).filter (fun q => q ≠ ""))

/-- `_handle_low_relevance_case`: mean of all passage scores across contexts,
reported in the causes; reformulations come from `_generate_specific_queries`
(whose backend exception propagates). `scores` extracts the per-context result
scores (`[r.relevance_score for r in context.results]`), keeping the function
generic in the duck-typed context objects. -/
def handle_low_relevance_case {α : Type} (scores : α → List ℚ)
    (llmSpecific : Except String String) (query : String) (search_contexts : List α) :
    Except String SearchFailureAnalysis :=
  let all_scores := (search_contexts.map scores).flatten
  let avg_score : ℚ :=
    if all_scores.isEmpty then 0 else all_scores.sum / (all_scores.length : ℚ)
  match generate_specific_queries llmSpecific query with
  | Except.error e => Except.error e
  | Except.ok qs =>
    Except.ok
      { failure_type := "low_relevance"
        possible_causes :=
          ["Score moyen de pertinence faible (" ++ format2f avg_score ++ ")",
           "Les termes de recherche sont peut-être trop généraux",
           "La requête contient peut-être des termes ambigus"]
        suggested_actions :=
          ["Essayer une recherche plus spécifique",
           "Utiliser des termes techniques précis",
           "Ajouter des filtres de recherche"]
        reformulated_queries := some qs }

/-- `analyze_failed_search`: dispatch on the failure kind. `search_contexts`
is `Option (List α)` because the caller may pass `None` or a list; both `None`
and `[]` are falsy. -/
def analyze_failed_search {α : Type} (scores : α → List ℚ)
    (llmAnalysis : Except String (Option NoResultsPayload))
    (llmSpecific : Except String String) (original_query : String)
    (available_kbs : List KBInfo) (search_contexts : Option (List α)) :
    Except String SearchFailureAnalysis :=
  if available_kbs.isEmpty then Except.ok handle_no_kb_case
  else if (match search_contexts with
    | none => true
    | some l => l.isEmpty) then
    handle_no_results_case llmAnalysis original_query
  else handle_low_relevance_case scores llmSpecific original_query
    (search_contexts.getD [])

/-- Score extraction for genuine `SearchContext` objects. -/
def ctxScores (c : SearchContext) : List ℚ := c.results.map (fun r => r.relevance_score)

end NoResultsHandler

/-! ## Orchestrator (`backend/agents/orchestrator.py`) -/

namespace Orchestrator

/-- The external collaborators of `AgentOrchestrator`, as oracles:
the catalog, the (current) query mapper and search agent, knowledge-base
loading, the per-base search used by the filtered path, the answer-synthesis
completion call, and the two backend-call outcomes inside `NoResultsHandler`. -/
structure OrchestratorEnv where
  catalog : List KBInfo
  mapQuery : String → List KBMappingResult
  multiSearch : String → List KBMappingResult → List SearchContext
  loadKB : String → Bool
  searchKB : String → String → Option PyMetadataFilter → List DocumentReference
  complete : String → String
  analysisLLM : Except String (Option NoResultsHandler.NoResultsPayload)
  specificLLM : Except String String

/-- The user `Message` appended at the top of `process_message`. -/
def userMsg (content : String) : Message := { role := "user", content := content }

/-- Knowledge-base title lookup over the catalog, with the id as fallback
(`next((kb for kb in ... if kb["id"] == ctx.kb_id), ...)`). -/
def kbTitle (env : OrchestratorEnv) (kb_id : String) : String :=
  match env.catalog.find? (fun kb => kb.id = kb_id) with
  | some kb => kb.title
  | none => kb_id

/-- `_build_context`: per context a base header line, then one block per result. -/
def build_context (env : OrchestratorEnv) (search_contexts : List SearchContext) : String :=
  pyJoin "\n" (search_contexts.flatMap (fun ctx =>
    ("\nContexte de la base \x27" ++ kbTitle env ctx.kb_id ++ "\x27:") ::
      ctx.results.map (fun r =>
        "Document \x27" ++ r.doc_title ++ "\x27:\n" ++ r.text ++ "\n")))

/-- `_build_response_prompt`. -/
def build_response_prompt (query context : String) : String :=
  "\n        Utilise le contexte suivant pour répondre à la question de manière claire et précise.\n        Cite les sources pertinentes dans ta réponse quand c\x27est approprié.\n        \n        Contexte:\n        " ++
    context ++ "\n\n        Question: " ++ query ++ "\n\n        Réponse:\n        "

/-- `_generate_response`: one completion call over the built prompt. -/
def generate_response (env : OrchestratorEnv) (query : String)
    (search_contexts : List SearchContext) : String :=
  env.complete (build_response_prompt query (build_context env search_contexts))

/-- `_create_response_message`: assistant message with `sources` metadata and
an optional `query_reformulation` record. -/
def create_response_message (env : OrchestratorEnv) (response : String)
    (search_contexts : List SearchContext)
    (metadata_extra : Option (String × String)) : Message :=
  { role := "assistant"
    content := response
    metadata := some (MessageMetadata.sources
      (search_contexts.map (fun ctx =>
        { kb_id := ctx.kb_id
          kb_title := kbTitle env ctx.kb_id
          documents := ctx.results.map (fun r =>
            { doc_id := r.doc_id
              title := r.doc_title
              relevance := r.relevance_score
              page_numbers := r.page_numbers }) }))
      metadata_extra) }

/-- `_create_failure_analysis_message`: the apologetic content built from the
analysis, with the `failure_analysis` metadata dict. -/
def create_failure_analysis_message (analysis : SearchFailureAnalysis) : Message :=
  let content :=
    ["Je n\x27ai pas trouvé de résultats satisfaisants pour votre recherche.",
     "\nCauses possibles :"] ++
      analysis.possible_causes.map (fun c => "- " ++ c) ++
      ["\nSuggestions :"] ++
      analysis.suggested_actions.map (fun a => "- " ++ a) ++
      (match analysis.reformulated_queries with
       | some (q :: qs) =>
         "\nVous pourriez essayer de reformuler votre question, par exemple :" ::
           (q :: qs).map (fun query => "- " ++ query)
       | _ => [])
  { role := "assistant"
    content := pyJoin "\n" content
    metadata := some (MessageMetadata.failureAnalysis
      { type := analysis.failure_type
        causes := analysis.possible_causes
        suggestions := analysis.suggested_actions
        reformulations := analysis.reformulated_queries }) }

/-- `_create_reformulated_response`: generate from the successful query, wrap
with the reformulation notice, attach the `query_reformulation` record. -/
def create_reformulated_response (env : OrchestratorEnv)
    (original_query successful_query : String)
    (search_contexts : List SearchContext) : Message :=
  let response := generate_response env successful_query search_contexts
  let formatted_response :=
    "J\x27ai trouvé des informations pertinentes en reformulant votre question \"" ++
      original_query ++ "\" en \"" ++ successful_query ++ "\" :\n\n" ++ response
  create_response_message env formatted_response search_contexts
    (some (original_query, successful_query))

/-- `_filtered_search`: search each filtered base that loads, keep non-empty
result lists as contexts at mapping score 1.0. -/
def filtered_search (env : OrchestratorEnv) (query : String) (f : SearchFilter) :
    List SearchContext :=
  (f.get_kb_ids.filter env.loadKB).filterMap (fun kb_id =>
    let results := env.searchKB query kb_id (f.to_metadata_filter kb_id)
    if results.isEmpty then none
    else some { kb_id := kb_id, results := results, mapping_score := 1 })

/-- The call `self.no_results_handler.analyze_failed_search(message, [], available_kbs)`
as written in `process_message`: the POSITIONAL arguments hand `[]` to the
handler parameter `available_kbs` and the catalog to its `search_contexts`
parameter. The catalog entries are plain dicts without a `results` attribute;
the low-relevance branch that would read it is unreachable here because the
handler sees an empty `available_kbs`. -/
def analyzeSwapped (env : OrchestratorEnv) (message : String) :
    Except String SearchFailureAnalysis :=
  NoResultsHandler.analyze_failed_search (fun (_ : KBInfo) => [])
    env.analysisLLM env.specificLLM message [] (some env.catalog)

/-- The reformulation retry loop: first query whose multi-KB search is
non-empty wins (short-circuit); `none` when every retry fails. -/
def tryReformulations (env : OrchestratorEnv) (original_query : String)
    (kb_mappings : List KBMappingResult) : List String → Option Message
  | [] => none
  | q :: rest =>
    let new_contexts := env.multiSearch q kb_mappings
    if new_contexts.isEmpty then tryReformulations env original_query kb_mappings rest
    else some (create_reformulated_response env original_query q new_contexts)

/-- The shared success tail of `process_message`: generate the answer, build
the response message, append it to the history. -/
def successTail (env : OrchestratorEnv) (message : String)
    (search_contexts : List SearchContext) (history1 : List Message) :
    Except String (Message × List Message) :=
  let response := generate_response env message search_contexts
  let response_message := create_response_message env response search_contexts none
  Except.ok (response_message, history1 ++ [response_message])

/-- The unfiltered flow of `process_message`: map the query, multi-KB search,
failure analysis with the (dead, see `analyzeSwapped`) reformulation loop. -/
def unfilteredFlow (env : OrchestratorEnv) (message : String)
    (history1 : List Message) : Except String (Message × List Message) :=
  let kb_mappings := env.mapQuery message
  if kb_mappings.isEmpty then
    match analyzeSwapped env message with
    | Except.error e => Except.error e
    | Except.ok analysis =>
      Except.ok (create_failure_analysis_message analysis, history1)
  else
    let search_contexts := env.multiSearch message kb_mappings
    if search_contexts.isEmpty then
      match analyzeSwapped env message with
      | Except.error e => Except.error e
      | Except.ok analysis =>
        match analysis.reformulated_queries with
        | some (q :: qs) =>
          (match tryReformulations env message kb_mappings (q :: qs) with
           | some msg => Except.ok (msg, history1)
           | none => Except.ok (create_failure_analysis_message analysis, history1))
        | _ => Except.ok (create_failure_analysis_message analysis, history1)
    else successTail env message search_contexts history1

/-- `process_message`: append the user message, then the filtered or the
unfiltered flow; the assistant message is appended to the history only on the
plain success tail. Returns the response message together with the new
conversation history. -/
def process_message (env : OrchestratorEnv) (history : List Message)
    (message : String) (search_filter : Option SearchFilter) :
    Except String (Message × List Message) :=
  let history1 := history ++ [userMsg message]
  match search_filter with
  | some f =>
    if f.has_filters then
      let search_contexts := filtered_search env message f
      if search_contexts.isEmpty then
        match analyzeSwapped env message with
        | Except.error e => Except.error e
        | Except.ok analysis =>
          Except.ok (create_failure_analysis_message analysis, history1)
      else successTail env message search_contexts history1
    else unfilteredFlow env message history1
  | none => unfilteredFlow env message history1

/-- The plain-success condition: the path of `process_message` that appends
the assistant message to the history (non-empty contexts on the first search
of the original message). -/
def plainSuccessB (env : OrchestratorEnv) (message : String)
    (search_filter : Option SearchFilter) : Bool :=
  match search_filter with
  | some f =>
    if f.has_filters then !(filtered_search env message f).isEmpty
    else
      !(env.mapQuery message).isEmpty &&
        !(env.multiSearch message (env.mapQuery message)).isEmpty
  | none =>
    !(env.mapQuery message).isEmpty &&
      !(env.multiSearch message (env.mapQuery message)).isEmpty

/-- The failure type recorded in the metadata of a message, when present. -/
def msgFailureType (m : Message) : Option String :=
  match m.metadata with
  | some (MessageMetadata.failureAnalysis fa) => some fa.type
  | _ => none

end Orchestrator

/-! ## Fixtures: concrete instances used by closed theorems -/

namespace Fixtures

/-- Chunk store with one stored chunk for document `d1` and no documents
enumerated for the keyword scan. -/
def dbC4 : SearchAgentOld.ChunkDB :=
  { all_doc_ids := []
    chunks := fun d => if d = "d1" then ["alpha"] else []
    titles := fun _ _ => "Doc One"
    docs := fun _ => none
    pages := fun _ _ => none }

/-- Fallback environment for the cap theorems: the native search returns one
hit on `d1` above the fallback floor; the keyword scan finds nothing. -/
def envC4 : SearchAgentOld.FallbackEnv :=
  { kbSearch := Except.ok [{ doc_id := "d1", chunk_index := 0, similarity := mkRat 1 2 }]
    db := dbC4 }

/-- A `SearchConfig` with the per-document cap set to 0 (cap disabled). -/
def cfgC4zero : SearchAgentOld.SearchConfig := { max_segments_per_doc := 0 }

/-- A `SearchConfig` with the default cap of 3. -/
def cfgC4three : SearchAgentOld.SearchConfig := {}

end Fixtures

instance : IsTotal KBMappingResult
    (fun a b => b.relevance_score ≤ a.relevance_score) :=
  ⟨fun a b => le_total b.relevance_score a.relevance_score⟩

instance : IsTrans KBMappingResult
    (fun a b => b.relevance_score ≤ a.relevance_score) :=
  ⟨fun _ _ _ hab hbc => le_trans hbc hab⟩

namespace Fixtures

/-- Catalog with the designated "normes" base and one other base. -/
def catalogC5 : List KBInfo :=
  [{ id := "normes", title := "Normes", description := "standards" },
   { id := "acme", title := "Acme", description := "acme docs" }]

/-- Backend mappings scoring "normes" at 0.6 and "acme" at 0.9. -/
def entriesC5 : List MappingEntry :=
  [{ kb_id := "normes", relevance_score := mkRat 6 10, reasoning := "raison assez longue ici" },
   { kb_id := "acme", relevance_score := mkRat 9 10, reasoning := "bonne correspondance" }]

/-- Catalog, backend entries and expected result for the mention-override
witness. -/
def catalogC6 : List KBInfo :=
  [{ id := "normes", title := "N", description := "D" }]

/-- Backend entry for `normes` at 0.8 (overridden to 1.0 by the mention). -/
def entriesC6 : List MappingEntry :=
  [{ kb_id := "normes", relevance_score := mkRat 8 10, reasoning := "ras" }]

/-- The mapping result returned for the mentioned base. -/
def resultC6 : KBMappingResult :=
  { kb_id := "normes", relevance_score := 1, reasoning := "ras" }

end Fixtures

namespace Fixtures

open Orchestrator

/-- Orchestrator environment for the C1 evaluation: a non-empty catalog, a
mapper that finds a relevant base, and a search pipeline producing zero
contexts for every query. -/
def envC1 : OrchestratorEnv :=
  { catalog := [{ id := "kb1", title := "KB One", description := "docs" }]
    mapQuery := fun _ => [{ kb_id := "kb1", relevance_score := mkRat 9 10, reasoning := "r" }]
    multiSearch := fun _ _ => []
    loadKB := fun _ => true
    searchKB := fun _ _ _ => []
    complete := fun _ => "réponse"
    analysisLLM := Except.ok none
    specificLLM := Except.ok "" }

/-- A search context with one passage, returned for the reformulated query. -/
def ctxC9 : SearchContext :=
  { kb_id := "kb1"
    results := [{ doc_id := "d1", doc_title := "Doc", text := "contenu", relevance_score := mkRat 8 10 }]
    mapping_score := mkRat 9 10 }

/-- Orchestrator environment for the C9 evaluation: zero contexts for the
original query and for `q1`, non-empty contexts for `q2`, and an analysis
backend that WOULD supply reformulations `[q1, q2]` were it ever consulted. -/
def envC9 : OrchestratorEnv :=
  { catalog := [{ id := "kb1", title := "KB One", description := "docs" }]
    mapQuery := fun _ => [{ kb_id := "kb1", relevance_score := mkRat 9 10, reasoning := "r" }]
    multiSearch := fun q _ => if q = "q2" then [ctxC9] else []
    loadKB := fun _ => true
    searchKB := fun _ _ _ => []
    complete := fun _ => "réponse"
    analysisLLM := Except.ok (some { possible_causes := ["c"], suggested_actions := ["a"], reformulations := ["q1", "q2"] })
    specificLLM := Except.ok "" }

end Fixtures

/-! ## Lemmas about the merge / dedup / cap machinery -/

/-- Bridge between the normalized-literal form `mkRat n d` used in the
definitions (kernel-reducible) and the division form used in statements. -/
theorem mkRatDiv (n : ℤ) (d : ℕ) : (mkRat n d : ℚ) = (n : ℚ) / (d : ℚ) := by
  rw [Rat.mkRat_eq_divInt, Rat.divInt_eq_div]
  norm_num

namespace SearchAgentOld

theorem get_chunk_key_applyPenalty (r : DocumentReference) :
    get_chunk_key (applyPenalty r) = get_chunk_key r := rfl

theorem mem_dedupOut {pen : DocumentReference → DocumentReference}
    {l : List DocumentReference} {s : List String} {r' : DocumentReference}
    (h : r' ∈ dedupOut pen l s) :
    ∃ r, r ∈ l ∧ r' = pen r ∧ get_chunk_key r ∉ s := by
  induction l generalizing s with
  | nil => simp [dedupOut] at h
  | cons r rest ih =>
    rw [dedupOut] at h
    by_cases hk : get_chunk_key r ∈ s
    · rw [if_pos hk] at h
      obtain ⟨r₀, h1, h2, h3⟩ := ih h
      exact ⟨r₀, List.mem_cons_of_mem _ h1, h2, h3⟩
    · rw [if_neg hk] at h
      rcases List.mem_cons.mp h with h | h
      · exact ⟨r, List.mem_cons_self _ _, h, hk⟩
      · obtain ⟨r₀, h1, h2, h3⟩ := ih h
        exact ⟨r₀, List.mem_cons_of_mem _ h1, h2,
          fun hs => h3 (List.mem_cons_of_mem _ hs)⟩

theorem mem_dedupSeen {l : List DocumentReference} {s : List String} {k : String} :
    k ∈ dedupSeen l s ↔ k ∈ s ∨ ∃ r, r ∈ l ∧ get_chunk_key r = k := by
  induction l generalizing s with
  | nil => simp [dedupSeen]
  | cons r rest ih =>
    rw [dedupSeen]
    by_cases hk : get_chunk_key r ∈ s
    · rw [if_pos hk, ih]
      constructor
      · rintro (h | ⟨r₀, h1, h2⟩)
        · exact Or.inl h
        · exact Or.inr ⟨r₀, List.mem_cons_of_mem _ h1, h2⟩
      · rintro (h | ⟨r₀, h1, h2⟩)
        · exact Or.inl h
        · rcases List.mem_cons.mp h1 with rfl | h1
          · exact Or.inl (h2 ▸ hk)
          · exact Or.inr ⟨r₀, h1, h2⟩
    · rw [if_neg hk, ih]
      constructor
      · rintro (h | ⟨r₀, h1, h2⟩)
        · rcases List.mem_cons.mp h with h | h
          · exact Or.inr ⟨r, List.mem_cons_self _ _, h.symm⟩
          · exact Or.inl h
        · exact Or.inr ⟨r₀, List.mem_cons_of_mem _ h1, h2⟩
      · rintro (h | ⟨r₀, h1, h2⟩)
        · exact Or.inl (List.mem_cons_of_mem _ h)
        · rcases List.mem_cons.mp h1 with rfl | h1
          · exact Or.inl (h2 ▸ List.mem_cons_self _ _)
          · exact Or.inr ⟨r₀, h1, h2⟩

theorem dedupOut_keys_nodup (pen : DocumentReference → DocumentReference)
    (hpen : ∀ r, get_chunk_key (pen r) = get_chunk_key r)
    {l : List DocumentReference} {s : List String} :
    ((dedupOut pen l s).map get_chunk_key).Nodup ∧
      ∀ r' ∈ dedupOut pen l s, get_chunk_key r' ∉ s := by
  induction l generalizing s with
  | nil => simp [dedupOut]
  | cons r rest ih =>
    rw [dedupOut]
    by_cases hk : get_chunk_key r ∈ s
    · rw [if_pos hk]
      exact ih
    · rw [if_neg hk]
      obtain ⟨hnd, hni⟩ := ih (s := get_chunk_key r :: s)
      refine ⟨?_, ?_⟩
      · rw [List.map_cons, List.nodup_cons]
        refine ⟨?_, hnd⟩
        intro hmem
        rw [hpen r] at hmem
        obtain ⟨r', hr', he⟩ := List.mem_map.mp hmem
        exact hni r' hr' (he ▸ List.mem_cons_self _ _)
      · intro r' hr'
        rcases List.mem_cons.mp hr' with rfl | hr'
        · rw [hpen]
          exact hk
        · exact fun hs => hni r' hr' (List.mem_cons_of_mem _ hs)

theorem dedupOut_covers (pen : DocumentReference → DocumentReference)
    (hpen : ∀ r, get_chunk_key (pen r) = get_chunk_key r)
    {l : List DocumentReference} {s : List String} :
    ∀ r ∈ l, get_chunk_key r ∉ s →
      ∃ r' ∈ dedupOut pen l s, get_chunk_key r' = get_chunk_key r := by
  induction l generalizing s with
  | nil => simp
  | cons r₀ rest ih =>
    intro r hr hrs
    rw [dedupOut]
    by_cases hk : get_chunk_key r₀ ∈ s
    · rw [if_pos hk]
      rcases List.mem_cons.mp hr with rfl | hr
      · exact absurd hk hrs
      · exact ih r hr hrs
    · rw [if_neg hk]
      rcases List.mem_cons.mp hr with rfl | hr
      · exact ⟨pen r, List.mem_cons_self _ _, hpen r⟩
      · by_cases hkey : get_chunk_key r = get_chunk_key r₀
        · exact ⟨pen r₀, List.mem_cons_self _ _, (hpen r₀).trans hkey.symm⟩
        · obtain ⟨r', hr', he⟩ := ih r hr (fun hmem => by
            rcases List.mem_cons.mp hmem with h | h
            · exact hkey h
            · exact hrs h)
          exact ⟨r', List.mem_cons_of_mem _ hr', he⟩

theorem mergedResults_keys_nodup (kbR kwR : List DocumentReference) :
    ((mergedResults kbR kwR).map get_chunk_key).Nodup := by
  unfold mergedResults
  rw [List.map_append, List.nodup_append]
  have h1 := dedupOut_keys_nodup id (fun _ => rfl) (l := kbR) (s := [])
  have h2 := dedupOut_keys_nodup applyPenalty get_chunk_key_applyPenalty (l := kwR)
    (s := dedupSeen kbR [])
  refine ⟨h1.1, h2.1, ?_⟩
  intro k hk1 hk2
  obtain ⟨r1, hr1, he1⟩ := List.mem_map.mp hk1
  obtain ⟨r2, hr2, he2⟩ := List.mem_map.mp hk2
  apply h2.2 r2 hr2
  rw [mem_dedupSeen]
  right
  have hr1kb : r1 ∈ kbR := by
    obtain ⟨r₀, h0, he0, _⟩ := mem_dedupOut hr1
    rwa [he0]
  exact ⟨r1, hr1kb, he1.trans he2.symm⟩

theorem mem_mergedResults_vector {kbR kwR : List DocumentReference}
    {r : DocumentReference} (hr : r ∈ mergedResults kbR kwR)
    (hkey : get_chunk_key r ∈ kbR.map get_chunk_key) : r ∈ kbR := by
  unfold mergedResults at hr
  rcases List.mem_append.mp hr with h | h
  · obtain ⟨r₀, h0, he, _⟩ := mem_dedupOut h
    rwa [he]
  · exfalso
    have h2 := (dedupOut_keys_nodup applyPenalty get_chunk_key_applyPenalty (l := kwR)
      (s := dedupSeen kbR [])).2 r h
    apply h2
    rw [mem_dedupSeen]
    right
    obtain ⟨r₀, h0, he⟩ := List.mem_map.mp hkey
    exact ⟨r₀, h0, he⟩

theorem mem_mergedResults_keyword {kbR kwR : List DocumentReference}
    {r : DocumentReference} (hr : r ∈ mergedResults kbR kwR)
    (hkey : get_chunk_key r ∉ kbR.map get_chunk_key) :
    ∃ k, k ∈ kwR ∧ r = applyPenalty k := by
  unfold mergedResults at hr
  rcases List.mem_append.mp hr with h | h
  · exfalso
    obtain ⟨r₀, h0, he, _⟩ := mem_dedupOut h
    exact hkey (by rw [he]; exact List.mem_map_of_mem _ h0)
  · obtain ⟨r₀, h0, he, _⟩ := mem_dedupOut h
    exact ⟨r₀, h0, he⟩

theorem mergedResults_covers_kw {kbR kwR : List DocumentReference}
    {k : DocumentReference} (hk : k ∈ kwR) :
    ∃ r, r ∈ mergedResults kbR kwR ∧ get_chunk_key r = get_chunk_key k := by
  by_cases hs : get_chunk_key k ∈ dedupSeen kbR []
  · rw [mem_dedupSeen] at hs
    rcases hs with h | ⟨r₀, h0, he⟩
    · exact absurd h (List.not_mem_nil _)
    · obtain ⟨r', hr', he'⟩ := dedupOut_covers id (fun _ => rfl) r₀ h0
        (List.not_mem_nil _)
      refine ⟨r', ?_, he'.trans he⟩
      unfold mergedResults
      exact List.mem_append_left _ hr'
  · obtain ⟨r', hr', he'⟩ := dedupOut_covers applyPenalty get_chunk_key_applyPenalty k hk hs
    refine ⟨r', ?_, he'⟩
    unfold mergedResults
    exact List.mem_append_right _ hr'

theorem capPerDoc_sublist (N : Int) (cnt : String → Nat) (l : List DocumentReference) :
    List.Sublist (capPerDoc N cnt l) l := by
  induction l generalizing cnt with
  | nil => simp [capPerDoc]
  | cons r rest ih =>
    rw [capPerDoc]
    by_cases h : (cnt r.doc_id : Int) < N
    · rw [if_pos h]
      exact (ih _).cons₂ r
    · rw [if_neg h]
      exact (ih _).cons r

theorem capPerDoc_countP (N : Int) (d : String) (l : List DocumentReference) :
    ∀ cnt : String → Nat,
      (capPerDoc N cnt l).countP (fun r => decide (r.doc_id = d)) ≤ N.toNat - cnt d := by
  induction l with
  | nil => intro cnt; simp [capPerDoc]
  | cons r rest ih =>
    intro cnt
    rw [capPerDoc]
    by_cases h : (cnt r.doc_id : Int) < N
    · rw [if_pos h]
      by_cases hd : r.doc_id = d
      · subst hd
        have hih := ih (fun d' => if d' = r.doc_id then cnt d' + 1 else cnt d')
        simp only [eq_self_iff_true, if_true] at hih
        simp only [List.countP_cons, decide_eq_true_eq, eq_self_iff_true, if_true]
        omega
      · have hih := ih (fun d' => if d' = r.doc_id then cnt d' + 1 else cnt d')
        rw [if_neg (fun he => hd he.symm)] at hih
        simpa [List.countP_cons, hd] using hih
    · rw [if_neg h]
      exact ih cnt

end SearchAgentOld

namespace SearchAgentOld

theorem mem_combined_subset_merged (env : FallbackEnv) (stop_words : List String)
    (query : String) (mf : Option PyMetadataFilter) (config : SearchConfig) :
    ∀ r ∈ combined_fallback_search env stop_words query mf config,
      r ∈ mergedResults (kbResults env config)
        (keywordResults env stop_words (get_keywords stop_words query) mf config) := by
  intro r hr
  unfold combined_fallback_search at hr
  by_cases hkw : (get_keywords stop_words query).isEmpty
  · rw [if_pos hkw] at hr
    exact absurd hr (List.not_mem_nil _)
  · rw [if_neg hkw] at hr
    have hsorted : r ∈ sortByScoreDesc (mergedResults (kbResults env config)
        (keywordResults env stop_words (get_keywords stop_words query) mf config)) := by
      by_cases hN : 0 < config.max_segments_per_doc
      · rw [if_pos hN] at hr
        exact (capPerDoc_sublist _ _ _).subset hr
      · rwa [if_neg hN] at hr
    exact (List.perm_insertionSort _ _).subset hsorted

theorem combined_keys_nodup (env : FallbackEnv) (stop_words : List String)
    (query : String) (mf : Option PyMetadataFilter) (config : SearchConfig) :
    ((combined_fallback_search env stop_words query mf config).map get_chunk_key).Nodup := by
  unfold combined_fallback_search
  by_cases hkw : (get_keywords stop_words query).isEmpty
  · rw [if_pos hkw]
    simp
  · rw [if_neg hkw]
    have hperm : List.Perm
        (sortByScoreDesc (mergedResults (kbResults env config)
          (keywordResults env stop_words (get_keywords stop_words query) mf config)))
        (mergedResults (kbResults env config)
          (keywordResults env stop_words (get_keywords stop_words query) mf config)) :=
      List.perm_insertionSort _ _
    have hsorted_nodup :
        ((sortByScoreDesc (mergedResults (kbResults env config)
          (keywordResults env stop_words (get_keywords stop_words query) mf config))).map
          get_chunk_key).Nodup :=
      ((hperm.map get_chunk_key).nodup_iff).mpr (mergedResults_keys_nodup _ _)
    by_cases hN : 0 < config.max_segments_per_doc
    · rw [if_pos hN]
      exact hsorted_nodup.sublist ((capPerDoc_sublist _ _ _).map get_chunk_key)
    · rw [if_neg hN]
      exact hsorted_nodup

end SearchAgentOld

/-! ## Claim theorems -/

section ClaimC3

open SearchAgentOld

/-- C3: in the merged output of the combined fallback search, no two results
share the dedup key `(doc_id, text[:100])` (and the final returned list, a
sorted-then-capped sublist of the merge, inherits this); every merged entry
whose key occurs among the vector results IS one of the vector results, with
its score unmodified (vector-first insertion, first-wins dedup); every merged
entry whose key is keyword-only is a keyword result with its score multiplied
by exactly 0.9; and the key of every keyword result is represented in the merge. -/
theorem spec_c3_merge_dedup (env : SearchAgentOld.FallbackEnv)
    (stop_words : List String) (query : String) (mf : Option PyMetadataFilter)
    (config : SearchAgentOld.SearchConfig) :
    (((combined_fallback_search env stop_words query mf config).map get_chunk_key).Nodup)
    ∧ ((mergedResults (kbResults env config)
        (keywordResults env stop_words (get_keywords stop_words query) mf config)).map
          get_chunk_key).Nodup
    ∧ (∀ r ∈ mergedResults (kbResults env config)
          (keywordResults env stop_words (get_keywords stop_words query) mf config),
        get_chunk_key r ∈ (kbResults env config).map get_chunk_key →
          r ∈ kbResults env config)
    ∧ (∀ r ∈ mergedResults (kbResults env config)
          (keywordResults env stop_words (get_keywords stop_words query) mf config),
        get_chunk_key r ∉ (kbResults env config).map get_chunk_key →
          ∃ k, k ∈ keywordResults env stop_words (get_keywords stop_words query) mf config ∧
            r = applyPenalty k ∧ r.relevance_score = k.relevance_score * (9/10))
    ∧ (∀ k ∈ keywordResults env stop_words (get_keywords stop_words query) mf config,
        ∃ r, r ∈ mergedResults (kbResults env config)
            (keywordResults env stop_words (get_keywords stop_words query) mf config) ∧
          get_chunk_key r = get_chunk_key k)
    ∧ (∀ r ∈ combined_fallback_search env stop_words query mf config,
        r ∈ mergedResults (kbResults env config)
          (keywordResults env stop_words (get_keywords stop_words query) mf config)) := by
  refine ⟨combined_keys_nodup env stop_words query mf config,
    mergedResults_keys_nodup _ _, ?_, ?_, ?_, mem_combined_subset_merged env stop_words query mf config⟩
  · intro r hr hkey
    exact mem_mergedResults_vector hr hkey
  · intro r hr hkey
    obtain ⟨k, hk, he⟩ := mem_mergedResults_keyword hr hkey
    refine ⟨k, hk, he, ?_⟩
    rw [he]
    show k.relevance_score * mkRat 9 10 = k.relevance_score * (9 / 10)
    rw [mkRatDiv]
    norm_num
  · intro k hk
    exact mergedResults_covers_kw hk

/-- Witness instantiating `spec_c3_merge_dedup` at the concrete fixture
environment, projecting the key-uniqueness of the returned list. -/
theorem spec_c3_merge_dedup_witness :
    ((combined_fallback_search Fixtures.envC4 [] "alpha" none
      Fixtures.cfgC4three).map get_chunk_key).Nodup :=
  (spec_c3_merge_dedup Fixtures.envC4 [] "alpha" none Fixtures.cfgC4three).1

end ClaimC3

section ClaimC4

open SearchAgentOld

/-- C4 (amended): with a POSITIVE `max_segments_per_doc = N`, no `doc_id`
occurs more than N times in the final combined-fallback result list; when
`N <= 0` the source skips the cap entirely (see the counterexample). -/
theorem spec_c4_per_doc_cap (env : SearchAgentOld.FallbackEnv)
    (stop_words : List String) (query : String) (mf : Option PyMetadataFilter)
    (config : SearchAgentOld.SearchConfig)
    (hN : 0 < config.max_segments_per_doc) (d : String) :
    ((combined_fallback_search env stop_words query mf config).countP
      (fun r => decide (r.doc_id = d)) : Int) ≤ config.max_segments_per_doc := by
  unfold combined_fallback_search
  by_cases hkw : (get_keywords stop_words query).isEmpty
  · rw [if_pos hkw]
    simp
    omega
  · rw [if_neg hkw, if_pos hN]
    have hcap := capPerDoc_countP config.max_segments_per_doc d
      (sortByScoreDesc (mergedResults (kbResults env config)
        (keywordResults env stop_words (get_keywords stop_words query) mf config)))
      (fun _ => 0)
    omega

end ClaimC4

section ClaimC4More

open SearchAgentOld

/-- C4 counterexample: with `max_segments_per_doc = 0` the source skips the
cap block entirely, so `d1` occurs once, which exceeds the claimed bound 0. -/
theorem spec_c4_counterexample :
    ¬ (((combined_fallback_search Fixtures.envC4 [] "alpha" none
        Fixtures.cfgC4zero).countP (fun r => decide (r.doc_id = "d1")) : Int) ≤
      Fixtures.cfgC4zero.max_segments_per_doc) := by
  decide

/-- Witness applying `spec_c4_per_doc_cap` at the fixture environment with the
default positive cap. -/
theorem spec_c4_per_doc_cap_witness :
    0 < Fixtures.cfgC4three.max_segments_per_doc ∧
      ((combined_fallback_search Fixtures.envC4 [] "alpha" none
        Fixtures.cfgC4three).countP (fun r => decide (r.doc_id = "d1")) : Int) ≤
        Fixtures.cfgC4three.max_segments_per_doc :=
  ⟨by decide,
   spec_c4_per_doc_cap Fixtures.envC4 [] "alpha" none Fixtures.cfgC4three (by decide) "d1"⟩

end ClaimC4More

section ClaimC2

open SearchAgentOld

/-- C2 evaluation at the failing input: as soon as one mapped base loads,
`multi_kb_search` raises a `TypeError` (it calls `self.search` with a `config`
keyword that `search(self, query, kb, filters=None)` does not accept) instead
of returning a list; when no base loads it does return `ok []`. -/
theorem spec_c2_code_eval :
    multi_kb_search (fun _ => true) "q"
        [{ kb_id := "kb1", relevance_score := mkRat 9 10, reasoning := "r" }] none =
      Except.error "TypeError: search() got an unexpected keyword argument \x27config\x27"
    ∧ multi_kb_search (fun _ => false) "q"
        [{ kb_id := "kb1", relevance_score := mkRat 9 10, reasoning := "r" }] none =
      Except.ok [] :=
  ⟨rfl, rfl⟩

/-- Whenever some mapped base loads, the old `multi_kb_search` necessarily
raises (never returns a result list): the `TypeError` at the first loadable
mapping propagates. -/
theorem multi_kb_search_raises_on_loadable (load : String → Bool) (q : String)
    (cfg : Option SearchAgentOld.SearchConfig) (ms : List KBMappingResult)
    (m : KBMappingResult) (hm : m ∈ ms) (hload : load m.kb_id = true) :
    ∀ ctxs, multi_kb_search load q ms cfg ≠ Except.ok ctxs := by
  induction ms with
  | nil => exact absurd hm (List.not_mem_nil _)
  | cons m₀ rest ih =>
    intro ctxs
    rw [multi_kb_search]
    rcases List.mem_cons.mp hm with rfl | hm₀
    · rw [if_pos hload]
      exact fun h => Except.noConfusion h
    · by_cases h0 : load m₀.kb_id
      · rw [if_pos h0]
        exact fun h => Except.noConfusion h
      · rw [if_neg h0]
        exact ih hm₀ ctxs

end ClaimC2

/-! ## Lemmas about the mapper variants -/


namespace MapperNorme

theorem scoreEntries_spec (q : String) (kbs : List KBInfo) (es : List MappingEntry) :
    ∀ m ∈ scoreEntries q kbs es,
      (mkRat 6 10 : ℚ) ≤ m.relevance_score ∧
        (strContains (pyLower q) (pyLower m.kb_id) = true → m.relevance_score = 1) ∧
        ∃ e ∈ es, m.kb_id = pyStrip e.kb_id := by
  induction es with
  | nil => intro m hm; exact absurd hm (List.not_mem_nil _)
  | cons e rest ih =>
    intro m hm
    simp only [scoreEntries] at hm
    split at hm
    · obtain ⟨h1, h2, e₀, he₀, hk⟩ := ih m hm
      exact ⟨h1, h2, e₀, List.mem_cons_of_mem _ he₀, hk⟩
    · rename_i hval
      have hany : kbs.any (fun kb => kb.id = pyStrip e.kb_id) = true := by
        simp only [Bool.or_eq_true, not_or, Bool.not_eq_true', Bool.not_eq_false] at hval
        exact hval.2
      split at hm
      · rename_i hmen
        rw [if_pos (show decide ((mkRat 6 10 : ℚ) ≤ (1 : ℚ)) = true by decide)] at hm
        rcases List.mem_cons.mp hm with rfl | hm₀
        · exact ⟨show (mkRat 6 10 : ℚ) ≤ 1 by decide, fun _ => rfl, e,
            List.mem_cons_self _ _, rfl⟩
        · obtain ⟨h1, h2, e₀, he₀, hk⟩ := ih m hm₀
          exact ⟨h1, h2, e₀, List.mem_cons_of_mem _ he₀, hk⟩
      · rename_i hmen
        split at hm
        · rename_i hscore
          rcases List.mem_cons.mp hm with rfl | hm₀
          · refine ⟨of_decide_eq_true hscore, ?_, e, List.mem_cons_self _ _, rfl⟩
            intro hmention
            exact absurd (show kb_mention q kbs (pyStrip e.kb_id) = true by
              simp only [kb_mention, hany, if_true]
              exact hmention) hmen
          · obtain ⟨h1, h2, e₀, he₀, hk⟩ := ih m hm₀
            exact ⟨h1, h2, e₀, List.mem_cons_of_mem _ he₀, hk⟩
        · obtain ⟨h1, h2, e₀, he₀, hk⟩ := ih m hm
          exact ⟨h1, h2, e₀, List.mem_cons_of_mem _ he₀, hk⟩

end MapperNorme

namespace MapperNorme

theorem mem_evaluate {q : String} {kbs : List KBInfo} {es : List MappingEntry}
    {m : KBMappingResult} (hm : m ∈ evaluate_kb_relevance q kbs es) :
    m ∈ scoreEntries q kbs es := by
  simp only [evaluate_kb_relevance] at hm
  split at hm
  · rename_i nm heq
    rcases List.mem_cons.mp hm with rfl | hm₀
    · have := List.mem_of_find?_eq_some heq
      rwa [sortDescM, List.mem_insertionSort] at this
    · split at hm₀
      · exact absurd hm₀ (List.not_mem_nil _)
      · rename_i o rest hfil
        rcases List.mem_cons.mp hm₀ with rfl | hcon
        · have : m ∈ (sortDescM (scoreEntries q kbs es)).filter
              (fun m => m.kb_id ≠ "normes") := by
            rw [hfil]
            exact List.mem_cons_self _ _
          have := List.mem_of_mem_filter this
          rwa [sortDescM, List.mem_insertionSort] at this
        · exact absurd hcon (List.not_mem_nil _)
  · have := List.take_subset 2 _ hm
    rwa [sortDescM, List.mem_insertionSort] at this

theorem evaluate_shape (q : String) (kbs : List KBInfo) (es : List MappingEntry) :
    (∃ nm tl, evaluate_kb_relevance q kbs es = nm :: tl ∧ nm.kb_id = "normes" ∧
        tl.length ≤ 1 ∧
        tl.Sorted (fun a b => b.relevance_score ≤ a.relevance_score))
    ∨ (evaluate_kb_relevance q kbs es).Sorted
        (fun a b => b.relevance_score ≤ a.relevance_score) := by
  have hsorted : (sortDescM (scoreEntries q kbs es)).Sorted
      (fun a b => b.relevance_score ≤ a.relevance_score) :=
    List.sorted_insertionSort _ _
  simp only [evaluate_kb_relevance]
  split
  · rename_i nm heq
    have hp := List.find?_some heq
    have hid : nm.kb_id = "normes" := by
      simpa using hp
    left
    split
    · exact ⟨nm, [], rfl, hid, by simp, List.sorted_nil⟩
    · rename_i o rest hfil
      exact ⟨nm, [o], rfl, hid, by simp, List.sorted_singleton o⟩
  · right
    exact hsorted.sublist (List.take_sublist 2 _)

end MapperNorme

namespace MapperNorme

theorem map_norme_cases (catalog : List KBInfo) (llm : Except String String)
    (parse : String → Option (List MappingEntry)) (query : String) (minRel : ℚ) :
    map_query_to_kbs catalog llm parse query minRel = [] ∨
      ∃ resp entries, llm = Except.ok resp ∧ parse resp = some entries ∧
        map_query_to_kbs catalog llm parse query minRel =
          evaluate_kb_relevance query catalog entries := by
  simp only [map_query_to_kbs]
  split
  · exact Or.inl rfl
  split
  · exact Or.inl rfl
  rename_i resp
  split
  · exact Or.inl rfl
  rename_i entries heq
  split
  · exact Or.inl rfl
  · exact Or.inr ⟨resp, entries, rfl, heq, rfl⟩

theorem mem_map_norme {catalog : List KBInfo} {llm : Except String String}
    {parse : String → Option (List MappingEntry)} {query : String} {minRel : ℚ}
    {m : KBMappingResult} (hm : m ∈ map_query_to_kbs catalog llm parse query minRel) :
    ∃ resp entries, llm = Except.ok resp ∧ parse resp = some entries ∧
      m ∈ evaluate_kb_relevance query catalog entries := by
  rcases map_norme_cases catalog llm parse query minRel with h | ⟨resp, entries, h1, h2, h3⟩
  · rw [h] at hm
    exact absurd hm (List.not_mem_nil _)
  · rw [h3] at hm
    exact ⟨resp, entries, h1, h2, hm⟩

end MapperNorme

section ClaimC5

/-- C5 (amended): in the norme variant every returned mapping has score at
least 0.6 (the `min_relevance` parameter is ignored), and the returned list is
sorted descending EXCEPT that the designated "normes" base, when retained, is
placed first (followed by at most one other base); in the score V1 variant the
parse-success path filters by `min_relevance` and is sorted descending, while
the JSON-decode-failure fallback returns every catalog base at the fixed score
0.5, bypassing the threshold. -/
theorem spec_c5_threshold_sort :
    (∀ (catalog : List KBInfo) (llm : Except String String)
        (parse : String → Option (List MappingEntry)) (query : String) (minRel : ℚ)
        (m : KBMappingResult),
        m ∈ MapperNorme.map_query_to_kbs catalog llm parse query minRel →
          (6/10 : ℚ) ≤ m.relevance_score)
    ∧ (∀ (catalog : List KBInfo) (llm : Except String String)
        (parse : String → Option (List MappingEntry)) (query : String) (minRel : ℚ),
        (∃ nm tl, MapperNorme.map_query_to_kbs catalog llm parse query minRel =
            nm :: tl ∧ nm.kb_id = "normes" ∧ tl.length ≤ 1 ∧
            tl.Sorted (fun a b => b.relevance_score ≤ a.relevance_score))
        ∨ (MapperNorme.map_query_to_kbs catalog llm parse query minRel).Sorted
            (fun a b => b.relevance_score ≤ a.relevance_score))
    ∧ (∀ (catalog : List KBInfo) (parse : String → Option (List MappingEntry))
        (query : String) (minRel : ℚ) (resp : String) (entries : List MappingEntry),
        parse resp = some entries →
          (∀ m ∈ MapperV1.map_query_to_kbs catalog (Except.ok resp) parse query minRel,
            minRel ≤ m.relevance_score)
          ∧ (MapperV1.map_query_to_kbs catalog (Except.ok resp) parse query
              minRel).Sorted (fun a b => b.relevance_score ≤ a.relevance_score))
    ∧ (∀ (catalog : List KBInfo) (parse : String → Option (List MappingEntry))
        (query : String) (minRel : ℚ) (resp : String),
        parse resp = none → catalog.isEmpty = false →
          MapperV1.map_query_to_kbs catalog (Except.ok resp) parse query minRel =
            catalog.map (fun kb =>
              { kb_id := kb.id
                relevance_score := mkRat 5 10
                reasoning := "Analyse automatique indisponible - score par défaut" })) := by
  have hbridge : (6/10 : ℚ) = mkRat 6 10 := by rw [mkRatDiv]; norm_num
  refine ⟨?_, ?_, ?_, ?_⟩
  · intro catalog llm parse query minRel m hm
    obtain ⟨resp, entries, _, _, hmem⟩ := MapperNorme.mem_map_norme hm
    have := (MapperNorme.scoreEntries_spec query catalog entries m
      (MapperNorme.mem_evaluate hmem)).1
    rw [hbridge]
    exact this
  · intro catalog llm parse query minRel
    rcases MapperNorme.map_norme_cases catalog llm parse query minRel with h |
      ⟨resp, entries, _, _, h3⟩
    · rw [h]
      exact Or.inr List.sorted_nil
    · rw [h3]
      exact MapperNorme.evaluate_shape query catalog entries
  · intro catalog parse query minRel resp entries hparse
    simp only [MapperV1.map_query_to_kbs, hparse]
    by_cases hcat : catalog.isEmpty
    · rw [if_pos hcat]
      exact ⟨fun m hm => absurd hm (List.not_mem_nil _), List.sorted_nil⟩
    · rw [if_neg hcat]
      constructor
      · intro m hm
        have := List.of_mem_filter hm
        exact of_decide_eq_true this
      · exact (List.sorted_insertionSort _ _).filter _
  · intro catalog parse query minRel resp hparse hcat
    simp only [MapperV1.map_query_to_kbs, hparse, hcat]
    rw [if_neg (by simp [hcat])]

end ClaimC5


section ClaimC5More

/-- C5 counterexample: with "normes" at 0.6 and "acme" at 0.9 and no mention in
the query, the norme variant returns `[normes@0.6, acme@0.9]` — the "normes"
priority rule places the LOWER score first, so the output is not sorted
descending as the claim states. -/
theorem spec_c5_counterexample :
    ¬ (MapperNorme.map_query_to_kbs Fixtures.catalogC5 (Except.ok "resp")
        (fun _ => some Fixtures.entriesC5) "bonjour" (mkRat 6 10)).Sorted
      (fun a b => b.relevance_score ≤ a.relevance_score) := by
  decide

/-- Witness applying the V1-fallback conjunct of `spec_c5_threshold_sort` at a
concrete catalog and an unparseable backend response. -/
theorem spec_c5_threshold_sort_witness :
    (fun _ : String => (none : Option (List MappingEntry))) "resp" = none ∧
      (Fixtures.catalogC5.isEmpty = false) ∧
      MapperV1.map_query_to_kbs Fixtures.catalogC5 (Except.ok "resp")
          (fun _ => none) "q" (mkRat 3 10) =
        Fixtures.catalogC5.map (fun kb =>
          { kb_id := kb.id
            relevance_score := mkRat 5 10
            reasoning := "Analyse automatique indisponible - score par défaut" }) :=
  ⟨rfl, rfl,
   spec_c5_threshold_sort.2.2.2 Fixtures.catalogC5 (fun _ => none) "q" (mkRat 3 10)
     "resp" rfl rfl⟩

end ClaimC5More

section ClaimC6

/-- C6 (amended): in the norme variant, any RETURNED mapping whose base id is a
case-insensitive substring of the query has score exactly 1.0; but a result is
only returned for bases present in the `mappings` array of the backend — a base the
backend omits yields no mapping result at all (see the counterexample). -/
theorem spec_c6_mention_override :
    (∀ (catalog : List KBInfo) (llm : Except String String)
        (parse : String → Option (List MappingEntry)) (query : String) (minRel : ℚ)
        (m : KBMappingResult),
        m ∈ MapperNorme.map_query_to_kbs catalog llm parse query minRel →
          strContains (pyLower query) (pyLower m.kb_id) = true →
          m.relevance_score = 1)
    ∧ (∀ (catalog : List KBInfo) (parse : String → Option (List MappingEntry))
        (query : String) (minRel : ℚ) (resp : String) (entries : List MappingEntry)
        (m : KBMappingResult),
        parse resp = some entries →
          m ∈ MapperNorme.map_query_to_kbs catalog (Except.ok resp) parse query minRel →
          ∃ e ∈ entries, m.kb_id = pyStrip e.kb_id) := by
  constructor
  · intro catalog llm parse query minRel m hm hmention
    obtain ⟨resp, entries, _, _, hmem⟩ := MapperNorme.mem_map_norme hm
    exact (MapperNorme.scoreEntries_spec query catalog entries m
      (MapperNorme.mem_evaluate hmem)).2.1 hmention
  · intro catalog parse query minRel resp entries m hparse hm
    obtain ⟨resp', entries', heq, hparse', hmem⟩ := MapperNorme.mem_map_norme hm
    have hresp : resp' = resp := (Except.ok.inj heq).symm
    rw [hresp, hparse] at hparse'
    have hent : entries' = entries := (Option.some.inj hparse').symm
    rw [hent] at hmem
    exact (MapperNorme.scoreEntries_spec query catalog entries m
      (MapperNorme.mem_evaluate hmem)).2.2

/-- C6 counterexample: the query mentions base `abc` but the
`mappings` array is empty, so the mapper returns NO result for `abc` at all
(the mention override only rescales entries the backend already returned). -/
theorem spec_c6_counterexample :
    MapperNorme.map_query_to_kbs
        [{ id := "abc", title := "T", description := "D" }] (Except.ok "resp")
        (fun _ => some []) "abc info" (mkRat 6 10) = [] ∧
      strContains (pyLower "abc info") (pyLower "abc") = true := by
  decide

/-- Witness applying the mention conjunct of `spec_c6_mention_override` at a
concrete run whose output contains the mentioned base at score 1.0. -/
theorem spec_c6_mention_override_witness :
    Fixtures.resultC6 ∈
        MapperNorme.map_query_to_kbs Fixtures.catalogC6 (Except.ok "resp")
          (fun _ => some Fixtures.entriesC6) "les normes ici" (mkRat 6 10) ∧
      strContains (pyLower "les normes ici") (pyLower Fixtures.resultC6.kb_id) = true ∧
      Fixtures.resultC6.relevance_score = 1 :=
  ⟨by decide, rfl,
   spec_c6_mention_override.1 Fixtures.catalogC6 (Except.ok "resp")
     (fun _ => some Fixtures.entriesC6) "les normes ici" (mkRat 6 10)
     Fixtures.resultC6 (by decide) rfl⟩

end ClaimC6

section ClaimC7

/-- C7 (amended): the norme variant catches a raising backend call and returns
`[]`, and the V1 variant does the same; but the copy2 variant only guards the
parsing stage — an unparseable response degrades to the catalog-wide fallback
at score 1.0, while an exception from the backend call itself PROPAGATES to
the caller. -/
theorem spec_c7_graceful_degradation :
    (∀ (catalog : List KBInfo) (parse : String → Option (List MappingEntry))
        (query : String) (minRel : ℚ) (e : String),
        MapperNorme.map_query_to_kbs catalog (Except.error e) parse query minRel = [])
    ∧ (∀ (catalog : List KBInfo) (parse : String → Option (List MappingEntry))
        (query : String) (minRel : ℚ) (e : String),
        MapperV1.map_query_to_kbs catalog (Except.error e) parse query minRel = [])
    ∧ (∀ (catalog : List KBInfo) (parse : String → Option (List MappingEntry))
        (query : String) (minRel : ℚ) (e : String),
        MapperCopy2.map_query_to_kbs catalog (Except.error e) parse query minRel =
          Except.error e)
    ∧ (∀ (catalog : List KBInfo) (parse : String → Option (List MappingEntry))
        (query : String) (minRel : ℚ) (resp : String),
        parse resp = none →
          MapperCopy2.map_query_to_kbs catalog (Except.ok resp) parse query minRel =
            Except.ok (catalog.map (fun kb =>
              { kb_id := kb.id
                relevance_score := 1
                reasoning := "Fallback: analyse automatique indisponible" }))) := by
  refine ⟨?_, ?_, ?_, ?_⟩
  · intro catalog parse query minRel e
    simp only [MapperNorme.map_query_to_kbs]
    split <;> rfl
  · intro catalog parse query minRel e
    simp only [MapperV1.map_query_to_kbs]
    split <;> rfl
  · intro catalog parse query minRel e
    rfl
  · intro catalog parse query minRel resp hparse
    simp only [MapperCopy2.map_query_to_kbs, hparse]

/-- C7 counterexample: a timeout raised by the backend call propagates out of
the copy2 `map_query_to_kbs` instead of being swallowed. -/
theorem spec_c7_counterexample :
    MapperCopy2.map_query_to_kbs [{ id := "a", title := "T", description := "D" }]
        (Except.error "TimeoutError") (fun _ => some []) "q" (mkRat 6 10) =
      Except.error "TimeoutError" := rfl

/-- Witness applying the parse-fallback conjunct of
`spec_c7_graceful_degradation` at a concrete unparseable response. -/
theorem spec_c7_graceful_degradation_witness :
    (fun _ : String => (none : Option (List MappingEntry))) "resp" = none ∧
      MapperCopy2.map_query_to_kbs [{ id := "a", title := "T", description := "D" }]
          (Except.ok "resp") (fun _ => none) "q" (mkRat 6 10) =
        Except.ok [{ kb_id := "a", relevance_score := 1, reasoning := "Fallback: analyse automatique indisponible" }] :=
  ⟨rfl,
   spec_c7_graceful_degradation.2.2.2
     [{ id := "a", title := "T", description := "D" }] (fun _ => none) "q"
     (mkRat 6 10) "resp" rfl⟩

end ClaimC7

section ClaimC8

open NoResultsHandler

/-- C8 (amended): `analyze_failed_search` never raises as long as its own
backend calls return normally — the no-KB path is fully deterministic, a
successfully parsed payload is wrapped as a `no_results` analysis, and an
unparseable payload degrades to the deterministic default analysis; but an
exception raised by the backend call itself PROPAGATES to the caller, both on
the no-results path and on the low-relevance path (the call stands outside the
`try` block). -/
theorem spec_c8_analyze_failed_search :
    (∀ (α : Type) (scores : α → List ℚ)
        (llmA : Except String (Option NoResultsPayload)) (llmS : Except String String)
        (q : String) (ctxs : Option (List α)),
        analyze_failed_search scores llmA llmS q [] ctxs =
          Except.ok handle_no_kb_case)
    ∧ (∀ (α : Type) (scores : α → List ℚ) (llmS : Except String String) (q : String)
        (kbs : List KBInfo) (ctxs : Option (List α)),
        kbs.isEmpty = false →
          (match ctxs with
            | none => true
            | some l => l.isEmpty) = true →
          analyze_failed_search scores (Except.ok none) llmS q kbs ctxs =
            Except.ok (get_default_no_results_analysis q))
    ∧ (∀ (α : Type) (scores : α → List ℚ) (llmS : Except String String) (q : String)
        (kbs : List KBInfo) (ctxs : Option (List α)) (p : NoResultsPayload),
        kbs.isEmpty = false →
          (match ctxs with
            | none => true
            | some l => l.isEmpty) = true →
          analyze_failed_search scores (Except.ok (some p)) llmS q kbs ctxs =
            Except.ok
              { failure_type := "no_results"
                possible_causes := p.possible_causes
                suggested_actions := p.suggested_actions
                reformulated_queries := some p.reformulations })
    ∧ (∀ (α : Type) (scores : α → List ℚ) (llmS : Except String String) (q : String)
        (kbs : List KBInfo) (ctxs : Option (List α)) (e : String),
        kbs.isEmpty = false →
          (match ctxs with
            | none => true
            | some l => l.isEmpty) = true →
          analyze_failed_search scores (Except.error e) llmS q kbs ctxs =
            Except.error e)
    ∧ (∀ (α : Type) (scores : α → List ℚ)
        (llmA : Except String (Option NoResultsPayload)) (q : String)
        (kbs : List KBInfo) (l : List α) (e : String),
        kbs.isEmpty = false → l.isEmpty = false →
          analyze_failed_search scores llmA (Except.error e) q kbs (some l) =
            Except.error e)
    ∧ (∀ (α : Type) (scores : α → List ℚ)
        (llmA : Except String (Option NoResultsPayload)) (q : String)
        (kbs : List KBInfo) (l : List α) (s : String),
        kbs.isEmpty = false → l.isEmpty = false →
          ∃ a, analyze_failed_search scores llmA (Except.ok s) q kbs (some l) =
              Except.ok a ∧ a.failure_type = "low_relevance") := by
  refine ⟨?_, ?_, ?_, ?_, ?_, ?_⟩
  · intro α scores llmA llmS q ctxs
    rfl
  · intro α scores llmS q kbs ctxs hkbs hctx
    simp only [analyze_failed_search, hkbs, hctx]
    rfl
  · intro α scores llmS q kbs ctxs p hkbs hctx
    simp only [analyze_failed_search, hkbs, hctx]
    rfl
  · intro α scores llmS q kbs ctxs e hkbs hctx
    simp only [analyze_failed_search, hkbs, hctx]
    rfl
  · intro α scores llmA q kbs l e hkbs hl
    simp only [analyze_failed_search, hkbs, hl]
    rfl
  · intro α scores llmA q kbs l s hkbs hl
    simp only [analyze_failed_search, hkbs, hl]
    exact ⟨_, rfl, rfl⟩

/-- C8 counterexample: with a non-empty catalog, no contexts, and a raising
analysis backend, `analyze_failed_search` propagates the exception instead of
returning the deterministic default analysis. -/
theorem spec_c8_counterexample :
    analyze_failed_search ctxScores (Except.error "APIError") (Except.ok "") "q"
        [{ id := "kb1", title := "T", description := "D" }] (some []) =
      Except.error "APIError" := rfl

/-- Witness applying the parse-fallback conjunct of
`spec_c8_analyze_failed_search` at concrete inputs. -/
theorem spec_c8_analyze_failed_search_witness :
    ([{ id := "kb1", title := "T", description := "D" }] : List KBInfo).isEmpty = false ∧
      (match (some [] : Option (List SearchContext)) with
        | none => true
        | some l => l.isEmpty) = true ∧
      analyze_failed_search ctxScores (Except.ok none) (Except.ok "") "une requête"
          [{ id := "kb1", title := "T", description := "D" }] (some []) =
        Except.ok (get_default_no_results_analysis "une requête") :=
  ⟨rfl, rfl,
   spec_c8_analyze_failed_search.2.1 SearchContext ctxScores (Except.ok "") "une requête"
     [{ id := "kb1", title := "T", description := "D" }] (some []) rfl rfl⟩

end ClaimC8


section ClaimOrchestrator

open Orchestrator

/-- The swapped-argument call always lands in the no-KB branch of the handler:
the orchestrator passes `[]` where the handler expects the catalog. -/
theorem analyzeSwapped_eq (env : OrchestratorEnv) (message : String) :
    analyzeSwapped env message = Except.ok NoResultsHandler.handle_no_kb_case := rfl

/-- The unfiltered flow returns a message and appends it to the history
exactly when the first multi-KB search of the original message succeeds. -/
theorem unfilteredFlow_spec (env : OrchestratorEnv) (message : String)
    (history1 : List Message) :
    ∃ msg, unfilteredFlow env message history1 =
      Except.ok (msg,
        if !(env.mapQuery message).isEmpty &&
            !(env.multiSearch message (env.mapQuery message)).isEmpty then
          history1 ++ [msg]
        else history1) := by
  by_cases hmap : (env.mapQuery message).isEmpty
  · refine ⟨create_failure_analysis_message NoResultsHandler.handle_no_kb_case, ?_⟩
    simp only [unfilteredFlow, hmap, if_pos rfl, analyzeSwapped_eq, Bool.not_true,
      Bool.false_and, if_neg]
    rfl
  · by_cases hctx : (env.multiSearch message (env.mapQuery message)).isEmpty
    · refine ⟨create_failure_analysis_message NoResultsHandler.handle_no_kb_case, ?_⟩
      simp only [unfilteredFlow, hmap, if_neg, hctx, analyzeSwapped_eq]
      simp only [Bool.not_true, Bool.and_false, if_neg]
      rfl
    · refine ⟨create_response_message env
        (generate_response env message (env.multiSearch message (env.mapQuery message)))
        (env.multiSearch message (env.mapQuery message)) none, ?_⟩
      simp only [unfilteredFlow, successTail]
      rw [if_neg (by simpa using hmap), if_neg (by simpa using hctx)]
      rw [if_pos (by simp [hmap, hctx])]

/-- C10: every call appends the user message to the history; the returned
assistant message is additionally appended exactly on the plain success path
(the failure-analysis and reformulated paths leave the history at the user
append only). -/
theorem spec_c10_history_frame (env : OrchestratorEnv) (history : List Message)
    (message : String) (search_filter : Option SearchFilter) :
    ∃ msg, process_message env history message search_filter =
      Except.ok (msg,
        if plainSuccessB env message search_filter then
          (history ++ [userMsg message]) ++ [msg]
        else history ++ [userMsg message]) := by
  match search_filter with
  | none =>
    simpa [process_message, plainSuccessB] using
      unfilteredFlow_spec env message (history ++ [userMsg message])
  | some f =>
    rcases Bool.eq_false_or_eq_true f.has_filters with hf | hf
    · rcases Bool.eq_false_or_eq_true (filtered_search env message f).isEmpty with
        hctx | hctx
      · refine ⟨create_failure_analysis_message NoResultsHandler.handle_no_kb_case, ?_⟩
        simp only [process_message, plainSuccessB, hf, if_true, hctx,
          analyzeSwapped_eq, Bool.not_true, Bool.false_eq_true, if_false]
      · refine ⟨create_response_message env
          (generate_response env message (filtered_search env message f))
          (filtered_search env message f) none, ?_⟩
        simp only [process_message, plainSuccessB, hf, if_true, hctx,
          Bool.false_eq_true, if_false, Bool.not_false, successTail, if_pos rfl]
    · simp only [process_message, plainSuccessB, hf, Bool.false_eq_true, if_false]
      exact unfilteredFlow_spec env message (history ++ [userMsg message])

end ClaimOrchestrator

section ClaimC1C9

open Orchestrator

/-- C1 evaluation at the failing input: with a NON-EMPTY catalog and a search
pipeline producing zero contexts, the Message returned by `process_message`
carries a failure analysis of type `"no_kb"`, not `"no_results"` — the call
`analyze_failed_search(message, [], available_kbs)` hands `[]` to the
handler parameter `available_kbs` and the catalog to its `search_contexts`
parameter (positional swap), so the handler always reports the no-KB case. -/
theorem spec_c1_code_eval :
    process_message Fixtures.envC1 [] "que disent les documents" none =
      Except.ok (create_failure_analysis_message NoResultsHandler.handle_no_kb_case,
        [userMsg "que disent les documents"])
    ∧ msgFailureType
        (create_failure_analysis_message NoResultsHandler.handle_no_kb_case) =
      some "no_kb"
    ∧ Fixtures.envC1.catalog ≠ []
    ∧ Fixtures.envC1.multiSearch "que disent les documents"
        (Fixtures.envC1.mapQuery "que disent les documents") = []
    ∧ "no_kb" ≠ "no_results" :=
  ⟨rfl, rfl, by decide, rfl, by decide⟩

/-- C9 evaluation at the failing input: the backend would supply reformulated
queries `[q1, q2]` (searching q1 fails, q2 succeeds), yet `process_message`
returns the no-KB failure message WITHOUT attempting any reformulation: the
swapped-argument call makes the computed analysis the no-KB analysis, whose
`reformulated_queries` is `None`, so the retry loop is dead code. The second
conjunct shows the retry loop itself WOULD short-circuit on q2 were it handed
those queries. -/
theorem spec_c9_code_eval :
    process_message Fixtures.envC9 [] "orig" none =
      Except.ok (create_failure_analysis_message NoResultsHandler.handle_no_kb_case,
        [userMsg "orig"])
    ∧ tryReformulations Fixtures.envC9 "orig" (Fixtures.envC9.mapQuery "orig")
        ["q1", "q2"] =
      some (create_reformulated_response Fixtures.envC9 "orig" "q2" [Fixtures.ctxC9])
    ∧ Fixtures.envC9.analysisLLM =
      Except.ok (some { possible_causes := ["c"], suggested_actions := ["a"], reformulations := ["q1", "q2"] })
    ∧ msgFailureType
        (create_failure_analysis_message NoResultsHandler.handle_no_kb_case) =
      some "no_kb" :=
  ⟨rfl, rfl, rfl, rfl⟩

end ClaimC1C9
